import Mathlib

/-
Verification of internal/cortex/ring/replication_strategy.go: the two
ReplicationStrategy implementations (quorum-based defaultReplicationStrategy
and best-effort ignoreUnhealthyInstancesReplicationStrategy) and the
properties of their Filter methods.

Machine integers are modelled as Int (Go int), durations and times as Int
nanosecond counts. The health predicate InstanceDesc.IsHealthy is defined
outside the verified file, so the strategies receive it as an abstract
boolean function parameter, exactly as the Go code treats it (a black-box
method call per instance). Go errors produced with fmt.Errorf are strings;
the absence of an error is modelled with Option.
-/

/-- Fragment of InstanceDesc (protobuf-generated, outside this file) holding
the fields the strategy code reads: the network address used for the
unhealthy diagnostics, plus placement and heartbeat data consulted only
through the abstract health predicate. -/
structure InstanceDesc where
  addr : String
  zone : String
  timestamp : Int
deriving DecidableEq, Repr, Inhabited

/-- Operation is an opaque request-kind tag (defined outside this file); the
strategies only pass it through to the health predicate. -/
abbrev Operation := Nat

/-- Type of the abstract health predicate, modelling the method call
instances[i].IsHealthy(op, heartbeatTimeout, now) at lines 37 and 85. The
arguments are the instance, the operation kind, the heartbeat timeout and
the current time. -/
abbrev HealthPred := InstanceDesc → Operation → Int → Int → Bool

/-- Separator string passed to strings.Join at lines 59 and 97. -/
def commaSep : String := ","

/-- One step of the Go slice removal idiom at lines 41 and 89,
instances = append(instances[:i], instances[i+1:]...), acting on the backing
array of the slice. backing is the full backing array owned by the caller,
n the current slice length, i the index being removed. Positions before i
keep their values, positions i to n-2 receive the old elements i+1 to n-1
shifted left by one, and positions from n-1 on keep their old values. -/
def sliceRemoveAt (backing : List InstanceDesc) (n i : Nat) : List InstanceDesc :=
  backing.take i ++ (backing.drop (i + 1)).take (n - 1 - i) ++ backing.drop (n - 1)

/-- The filtering loop shared verbatim by both Filter implementations
(lines 36-43 and 84-91): walk the slice with index i, keep healthy entries,
remove unhealthy entries in place while recording their addresses in order.
The fuel argument bounds the number of iterations; since n - i strictly
decreases at every step, runFilterLoop supplies enough fuel for the loop to
run to completion. Returns the final backing array, the final slice length
and the collected unhealthy addresses. -/
def filterLoopAux (p : InstanceDesc → Bool) :
    Nat → List InstanceDesc → Nat → Nat → List String →
    List InstanceDesc × Nat × List String
  | 0, backing, n, _, unh => (backing, n, unh)
  | fuel + 1, backing, n, i, unh =>
    if i < n then
      if p (backing.getD i default) then
        filterLoopAux p fuel backing n (i + 1) unh
      else
        filterLoopAux p fuel (sliceRemoveAt backing n i) (n - 1) i
          (unh ++ [(backing.getD i default).addr])
    else (backing, n, unh)

/-- Run the filtering loop of lines 36-43 (identically lines 84-91) on a
freshly passed instances slice: the slice initially covers the whole backing
array and the unhealthy accumulator starts empty. -/
def runFilterLoop (p : InstanceDesc → Bool) (instances : List InstanceDesc) :
    List InstanceDesc × Nat × List String :=
  filterLoopAux p instances.length instances instances.length 0 []

/-- Result triple of ReplicationStrategy.Filter (line 16):
(healthy, maxFailures, err). Go errors built by fmt.Errorf carry only a
message string, so err is an optional string and none means a nil error. -/
structure FilterResult where
  healthy : List InstanceDesc
  maxFailures : Int
  err : Option String
deriving DecidableEq, Repr

/-- Optional suffix naming the unhealthy instances, built at lines 58-60 and
96-98: empty when no instance was filtered out, otherwise the fixed prefix
followed by the comma-joined addresses. -/
def unhealthyStr (unhealthy : List String) : String :=
  if 0 < unhealthy.length then
    " - unhealthy instances: " ++ String.intercalate commaSep unhealthy
  else ""

/-- Middle part of the zone-aware error format string of line 63. -/
def zoneRequiredClause : String :=
  " live replicas required across different availability zones, could only find "

/-- Middle part of the plain error format string of line 65. -/
def plainRequiredClause : String :=
  " live replicas required, could only find "

/-- The wording fragment that distinguishes the zone-aware error message. -/
def zoneClause : String := "across different availability zones"

/-- Error message of the quorum strategy, lines 62-66: the zone-aware and the
plain wording, with minSuccess, the found healthy count and the optional
unhealthy suffix interpolated as fmt.Errorf does. -/
def insufficientReplicasMsg (minSuccess : Int) (found : Nat) (unhealthy : List String)
    (zoneAwarenessEnabled : Bool) : String :=
  "at least " ++ toString minSuccess ++
    (if zoneAwarenessEnabled then zoneRequiredClause else plainRequiredClause) ++
    toString found ++ unhealthyStr unhealthy

/-- Error message of the best-effort strategy, line 99. -/
def noHealthyReplicaMsg (unhealthy : List String) : String :=
  "at least 1 healthy replica required, could only find 0" ++ unhealthyStr unhealthy

/-- Reassignment of replicationFactor at lines 48-50: if the healthy count
exceeds the configured factor, the healthy count becomes the basis for the
quorum computation. -/
def codeEffectiveFactor (replicationFactor : Int) (healthyCount : Nat) : Int :=
  if (healthyCount : Int) > replicationFactor then (healthyCount : Int)
  else replicationFactor

/-- minSuccess computed at line 52 from the possibly reassigned replication
factor. The dividend is never negative (it is at least the healthy count),
so the Go truncating integer division agrees with this division. -/
def codeMinSuccess (replicationFactor : Int) (healthyCount : Nat) : Int :=
  codeEffectiveFactor replicationFactor healthyCount / 2 + 1

/-- Body of defaultReplicationStrategy.Filter, lines 31-72: run the shared
filtering loop, recompute the replication factor and minSuccess, fail fast
with nil instances when fewer than minSuccess healthy instances remain,
otherwise return the healthy slice and the failure budget. The now argument
models the value captured once from time.Now() at line 32. -/
def defaultFilter (isHealthy : HealthPred) (instances : List InstanceDesc)
    (op : Operation) (replicationFactor : Int) (heartbeatTimeout : Int) (now : Int)
    (zoneAwarenessEnabled : Bool) : FilterResult :=
  let r := runFilterLoop (fun inst => isHealthy inst op heartbeatTimeout now) instances
  let healthy := r.1.take r.2.1
  let minSuccess := codeMinSuccess replicationFactor healthy.length
  if (healthy.length : Int) < minSuccess then
    { healthy := []
      maxFailures := 0
      err := some (insufficientReplicasMsg minSuccess healthy.length r.2.2
        zoneAwarenessEnabled) }
  else
    { healthy := healthy
      maxFailures := (healthy.length : Int) - minSuccess
      err := none }

/-- Body of ignoreUnhealthyInstancesReplicationStrategy.Filter, lines 80-103:
run the shared filtering loop, require at least one healthy instance, and on
success tolerate all but one failure. The replication factor and the
zone-awareness flag are ignored (blank parameters in the source). The now
argument models the value captured once from time.Now() at line 81. -/
def ignoreUnhealthyFilter (isHealthy : HealthPred) (instances : List InstanceDesc)
    (op : Operation) (_replicationFactor : Int) (heartbeatTimeout : Int) (now : Int)
    (_zoneAwarenessEnabled : Bool) : FilterResult :=
  let r := runFilterLoop (fun inst => isHealthy inst op heartbeatTimeout now) instances
  let healthy := r.1.take r.2.1
  if healthy.length = 0 then
    { healthy := []
      maxFailures := 0
      err := some (noHealthyReplicaMsg r.2.2) }
  else
    { healthy := healthy
      maxFailures := (healthy.length : Int) - 1
      err := none }

/-- The quorum strategy receiver, an empty struct (line 19). -/
structure defaultReplicationStrategy

/-- The best-effort strategy receiver, an empty struct (line 74). -/
structure ignoreUnhealthyInstancesReplicationStrategy

/-- Method form of the quorum Filter with its receiver. -/
def defaultReplicationStrategy.Filter (_s : defaultReplicationStrategy)
    (isHealthy : HealthPred) (instances : List InstanceDesc) (op : Operation)
    (replicationFactor heartbeatTimeout now : Int) (zoneAwarenessEnabled : Bool) :
    FilterResult :=
  defaultFilter isHealthy instances op replicationFactor heartbeatTimeout now
    zoneAwarenessEnabled

/-- Method form of the best-effort Filter with its receiver. -/
def ignoreUnhealthyInstancesReplicationStrategy.Filter
    (_s : ignoreUnhealthyInstancesReplicationStrategy)
    (isHealthy : HealthPred) (instances : List InstanceDesc) (op : Operation)
    (replicationFactor heartbeatTimeout now : Int) (zoneAwarenessEnabled : Bool) :
    FilterResult :=
  ignoreUnhealthyFilter isHealthy instances op replicationFactor heartbeatTimeout now
    zoneAwarenessEnabled

/-- Parameter names of ReplicationStrategy.Filter as declared in the source
interface (line 16). There is no now parameter: each implementation captures
time.Now() internally, once per call, at lines 32 and 81. -/
def FilterParamNames : List String :=
  ["instances", "op", "replicationFactor", "heartbeatTimeout", "zoneAwarenessEnabled"]

/-- Healthy subset stated independently of the loop: the order-preserving
filter of the input by the health predicate at the one captured time. -/
def healthySubset (isHealthy : HealthPred) (instances : List InstanceDesc)
    (op : Operation) (heartbeatTimeout now : Int) : List InstanceDesc :=
  instances.filter (fun inst => isHealthy inst op heartbeatTimeout now)

/-- Addresses of the filtered-out instances, in input order. -/
def unhealthyAddrs (isHealthy : HealthPred) (instances : List InstanceDesc)
    (op : Operation) (heartbeatTimeout now : Int) : List String :=
  (instances.filter (fun inst => !(isHealthy inst op heartbeatTimeout now))).map
    InstanceDesc.addr

/-- Follows the spec words: the effective replication factor is the maximum
of the configured factor and the number of healthy instances. -/
def specEffectiveFactor (replicationFactor : Int) (healthyCount : Nat) : Int :=
  max replicationFactor (healthyCount : Int)

/-- Follows the spec words: minSuccess is the floor of half the effective
factor, plus one. The effective factor is nonnegative, so the floor is
expressed by Nat division after toNat. -/
def specMinSuccess (replicationFactor : Int) (healthyCount : Nat) : Int :=
  (((specEffectiveFactor replicationFactor healthyCount).toNat / 2 : Nat) : Int) + 1

/-- Backing array of the instances slice as the caller sees it after either
Filter returns: both strategies run the same in-place removal loop on the
slice the caller passed in. -/
def backingAfterFilterLoop (isHealthy : HealthPred) (instances : List InstanceDesc)
    (op : Operation) (heartbeatTimeout now : Int) : List InstanceDesc :=
  (runFilterLoop (fun inst => isHealthy inst op heartbeatTimeout now) instances).1

/-- Health predicate used by the concrete check inputs: an instance is
healthy unless its address is one of the three bad ones. -/
def exHealthy : HealthPred := fun inst _ _ _ =>
  inst.addr != "bad1" && inst.addr != "bad2" && inst.addr != "bad3"

/-- Health predicate declaring every instance unhealthy. -/
def exAllUnhealthy : HealthPred := fun _ _ _ _ => false

/-- Concrete instances for the evaluated checks. -/
def exA1 : InstanceDesc := ⟨"a1", "z1", 0⟩

def exA2 : InstanceDesc := ⟨"a2", "z2", 0⟩

def exA3 : InstanceDesc := ⟨"a3", "z3", 0⟩

def exA4 : InstanceDesc := ⟨"a4", "z1", 0⟩

def exA5 : InstanceDesc := ⟨"a5", "z2", 0⟩

/-- Concrete instances whose addresses exHealthy reports as unhealthy. -/
def exB1 : InstanceDesc := ⟨"bad1", "z1", 0⟩

def exB2 : InstanceDesc := ⟨"bad2", "z2", 0⟩

def exB3 : InstanceDesc := ⟨"bad3", "z3", 0⟩

/-- An instance whose single address contains a comma, so that its joined
rendering collides with the rendering of two one-letter addresses. -/
def exCommaAddr : InstanceDesc := ⟨"a,b", "z1", 0⟩

def exA : InstanceDesc := ⟨"a", "z1", 0⟩

def exB : InstanceDesc := ⟨"b", "z2", 0⟩

/-- The name of the time argument the spec expects the caller to supply. -/
def nowParamName : String := "now"

theorem filterLoopAux_spec (p : InstanceDesc → Bool) :
    ∀ (fuel : Nat) (backing : List InstanceDesc) (n i : Nat) (unh : List String),
      n ≤ backing.length → i ≤ n → n - i ≤ fuel →
      ((filterLoopAux p fuel backing n i unh).1.length = backing.length ∧
        (filterLoopAux p fuel backing n i unh).2.1 =
          i + (((backing.drop i).take (n - i)).filter p).length ∧
        (filterLoopAux p fuel backing n i unh).1.take
            (filterLoopAux p fuel backing n i unh).2.1 =
          backing.take i ++ ((backing.drop i).take (n - i)).filter p ∧
        (filterLoopAux p fuel backing n i unh).2.2 =
          unh ++ ((((backing.drop i).take (n - i)).filter (fun x => !p x)).map
            InstanceDesc.addr)) := by
  intro fuel
  induction fuel with
  | zero =>
    intro backing n i unh hn hi hf
    have hin : i = n := by omega
    subst hin
    simp [filterLoopAux]
  | succ fuel ih =>
    intro backing n i unh hn hi hf
    have hunfold : filterLoopAux p (fuel + 1) backing n i unh
        = if i < n then
            (if p (backing.getD i default) then
              filterLoopAux p fuel backing n (i + 1) unh
            else
              filterLoopAux p fuel (sliceRemoveAt backing n i) (n - 1) i
                (unh ++ [(backing.getD i default).addr]))
          else (backing, n, unh) := rfl
    by_cases hin : i < n
    · have hiL : i < backing.length := by omega
      have hgd : backing.getD i default = backing[i] := by
        simp [List.getD_eq_getElem?_getD, List.getElem?_eq_getElem hiL]
      have hdrop : backing.drop i = backing[i] :: backing.drop (i + 1) :=
        List.drop_eq_getElem_cons hiL
      by_cases hp : p backing[i]
      · have hstep : filterLoopAux p (fuel + 1) backing n i unh
            = filterLoopAux p fuel backing n (i + 1) unh := by
          rw [hunfold, if_pos hin, hgd, if_pos hp]
        obtain ⟨h1, h2, h3, h4⟩ := ih backing n (i + 1) unh hn (by omega) (by omega)
        have hseg : (backing.drop i).take (n - i)
            = backing[i] :: (backing.drop (i + 1)).take (n - (i + 1)) := by
          rw [hdrop, show n - i = (n - (i + 1)) + 1 from by omega, List.take_succ_cons]
        have htakei : backing.take (i + 1) = backing.take i ++ [backing[i]] := by
          rw [List.take_succ, List.getElem?_eq_getElem hiL]
          rfl
        rw [hstep]
        refine ⟨h1, ?_, ?_, ?_⟩
        · rw [h2, hseg, List.filter_cons, if_pos hp]
          simp only [List.length_cons]
          omega
        · rw [h3, hseg, List.filter_cons, if_pos hp, htakei, List.append_assoc,
            List.singleton_append]
        · rw [h4, hseg, List.filter_cons]
          simp [hp]
      · have hpf : p backing[i] = false := by simpa using hp
        have hstep : filterLoopAux p (fuel + 1) backing n i unh
            = filterLoopAux p fuel (sliceRemoveAt backing n i) (n - 1) i
                (unh ++ [backing[i].addr]) := by
          rw [hunfold, if_pos hin, hgd, if_neg (by simp [hpf])]
        have hA : (backing.take i).length = i := by
          simp only [List.length_take]
          omega
        have hB : ((backing.drop (i + 1)).take (n - 1 - i)).length = n - 1 - i := by
          simp only [List.length_take, List.length_drop]
          omega
        have hAssoc : sliceRemoveAt backing n i
            = backing.take i ++ ((backing.drop (i + 1)).take (n - 1 - i)
                ++ backing.drop (n - 1)) := by
          simp [sliceRemoveAt, List.append_assoc]
        have hlen : (sliceRemoveAt backing n i).length = backing.length := by
          simp only [sliceRemoveAt, List.length_append, List.length_take, List.length_drop]
          omega
        have htake : (sliceRemoveAt backing n i).take i = backing.take i := by
          rw [hAssoc]
          exact List.take_left' hA
        have hdrop2 : (sliceRemoveAt backing n i).drop i
            = (backing.drop (i + 1)).take (n - 1 - i) ++ backing.drop (n - 1) := by
          rw [hAssoc]
          exact List.drop_left' hA
        have hseg2 : ((sliceRemoveAt backing n i).drop i).take (n - 1 - i)
            = (backing.drop (i + 1)).take (n - 1 - i) := by
          rw [hdrop2]
          exact List.take_left' hB
        have hseg : (backing.drop i).take (n - i)
            = backing[i] :: (backing.drop (i + 1)).take (n - 1 - i) := by
          rw [hdrop, show n - i = (n - 1 - i) + 1 from by omega, List.take_succ_cons]
        obtain ⟨h1, h2, h3, h4⟩ := ih (sliceRemoveAt backing n i) (n - 1) i
          (unh ++ [backing[i].addr]) (by rw [hlen]; omega) (by omega) (by omega)
        rw [hseg2] at h2 h3 h4
        rw [htake] at h3
        rw [hstep]
        refine ⟨h1.trans hlen, ?_, ?_, ?_⟩
        · rw [h2, hseg, List.filter_cons, if_neg (by simp [hpf])]
        · rw [h3, hseg, List.filter_cons, if_neg (by simp [hpf])]
        · rw [h4, hseg, List.filter_cons, if_pos (by simp [hpf]), List.map_cons]
          simp [List.append_assoc]
    · have hieq : i = n := by omega
      subst hieq
      rw [hunfold, if_neg hin]
      simp

theorem runFilterLoop_spec (p : InstanceDesc → Bool) (instances : List InstanceDesc) :
    (runFilterLoop p instances).1.length = instances.length ∧
    (runFilterLoop p instances).2.1 = (instances.filter p).length ∧
    (runFilterLoop p instances).1.take (runFilterLoop p instances).2.1 =
      instances.filter p ∧
    (runFilterLoop p instances).2.2 =
      (instances.filter (fun x => !p x)).map InstanceDesc.addr := by
  have h := filterLoopAux_spec p instances.length instances instances.length 0 []
    (le_refl _) (Nat.zero_le _) (by omega)
  simpa [runFilterLoop] using h

theorem defaultFilter_characterization (isHealthy : HealthPred)
    (instances : List InstanceDesc) (op : Operation)
    (replicationFactor heartbeatTimeout now : Int) (zoneAwarenessEnabled : Bool) :
    defaultFilter isHealthy instances op replicationFactor heartbeatTimeout now
        zoneAwarenessEnabled =
      (if ((healthySubset isHealthy instances op heartbeatTimeout now).length : Int) <
          codeMinSuccess replicationFactor
            (healthySubset isHealthy instances op heartbeatTimeout now).length then
        { healthy := []
          maxFailures := 0
          err := some (insufficientReplicasMsg
            (codeMinSuccess replicationFactor
              (healthySubset isHealthy instances op heartbeatTimeout now).length)
            (healthySubset isHealthy instances op heartbeatTimeout now).length
            (unhealthyAddrs isHealthy instances op heartbeatTimeout now)
            zoneAwarenessEnabled) }
      else
        { healthy := healthySubset isHealthy instances op heartbeatTimeout now
          maxFailures :=
            ((healthySubset isHealthy instances op heartbeatTimeout now).length : Int) -
              codeMinSuccess replicationFactor
                (healthySubset isHealthy instances op heartbeatTimeout now).length
          err := none }) := by
  obtain ⟨h1, h2, h3, h4⟩ :=
    runFilterLoop_spec (fun inst => isHealthy inst op heartbeatTimeout now) instances
  have h3' := h3
  rw [h2] at h3'
  simp only [defaultFilter, healthySubset, unhealthyAddrs, h2, h3', h4]

theorem ignoreFilter_characterization (isHealthy : HealthPred)
    (instances : List InstanceDesc) (op : Operation)
    (replicationFactor heartbeatTimeout now : Int) (zoneAwarenessEnabled : Bool) :
    ignoreUnhealthyFilter isHealthy instances op replicationFactor heartbeatTimeout now
        zoneAwarenessEnabled =
      (if (healthySubset isHealthy instances op heartbeatTimeout now).length = 0 then
        { healthy := []
          maxFailures := 0
          err := some (noHealthyReplicaMsg
            (unhealthyAddrs isHealthy instances op heartbeatTimeout now)) }
      else
        { healthy := healthySubset isHealthy instances op heartbeatTimeout now
          maxFailures :=
            ((healthySubset isHealthy instances op heartbeatTimeout now).length : Int) - 1
          err := none }) := by
  obtain ⟨h1, h2, h3, h4⟩ :=
    runFilterLoop_spec (fun inst => isHealthy inst op heartbeatTimeout now) instances
  have h3' := h3
  rw [h2] at h3'
  simp only [ignoreUnhealthyFilter, healthySubset, unhealthyAddrs, h2, h3', h4]

theorem codeEffectiveFactor_bounds (replicationFactor : Int) (healthyCount : Nat) :
    0 ≤ codeEffectiveFactor replicationFactor healthyCount ∧
    (healthyCount : Int) ≤ codeEffectiveFactor replicationFactor healthyCount ∧
    replicationFactor ≤ codeEffectiveFactor replicationFactor healthyCount := by
  unfold codeEffectiveFactor
  split <;> omega

theorem codeMinSuccess_pos (replicationFactor : Int) (healthyCount : Nat) :
    1 ≤ codeMinSuccess replicationFactor healthyCount := by
  have h := codeEffectiveFactor_bounds replicationFactor healthyCount
  unfold codeMinSuccess
  omega

theorem code_eq_spec (replicationFactor : Int) (healthyCount : Nat) :
    codeEffectiveFactor replicationFactor healthyCount =
      specEffectiveFactor replicationFactor healthyCount ∧
    codeMinSuccess replicationFactor healthyCount =
      specMinSuccess replicationFactor healthyCount := by
  have h1 : codeEffectiveFactor replicationFactor healthyCount =
      specEffectiveFactor replicationFactor healthyCount := by
    unfold codeEffectiveFactor specEffectiveFactor
    split <;> omega
  refine ⟨h1, ?_⟩
  unfold codeMinSuccess specMinSuccess
  rw [h1]
  have h2 : 0 ≤ specEffectiveFactor replicationFactor healthyCount := by
    unfold specEffectiveFactor
    omega
  omega

/-- C1: for every instance list, operation kind and configured replication
factor, with H the healthy subset at the captured time, the quorum Filter
computes the effective factor as max(RF, len(H)) and minSuccess as
floor(effective / 2) + 1; whenever len(H) is at least minSuccess it returns
the full healthy subset H untrimmed, maxFailures = len(H) - minSuccess, and
no error. -/
theorem C1_quorum_success (isHealthy : HealthPred) (instances : List InstanceDesc)
    (op : Operation) (replicationFactor heartbeatTimeout now : Int)
    (zoneAwarenessEnabled : Bool)
    (hq : specMinSuccess replicationFactor
        (healthySubset isHealthy instances op heartbeatTimeout now).length ≤
      ((healthySubset isHealthy instances op heartbeatTimeout now).length : Int)) :
    codeEffectiveFactor replicationFactor
        (healthySubset isHealthy instances op heartbeatTimeout now).length =
      specEffectiveFactor replicationFactor
        (healthySubset isHealthy instances op heartbeatTimeout now).length ∧
    codeMinSuccess replicationFactor
        (healthySubset isHealthy instances op heartbeatTimeout now).length =
      specMinSuccess replicationFactor
        (healthySubset isHealthy instances op heartbeatTimeout now).length ∧
    defaultFilter isHealthy instances op replicationFactor heartbeatTimeout now
        zoneAwarenessEnabled =
      { healthy := healthySubset isHealthy instances op heartbeatTimeout now
        maxFailures :=
          ((healthySubset isHealthy instances op heartbeatTimeout now).length : Int) -
            specMinSuccess replicationFactor
              (healthySubset isHealthy instances op heartbeatTimeout now).length
        err := none } := by
  obtain ⟨he, hm⟩ := code_eq_spec replicationFactor
    (healthySubset isHealthy instances op heartbeatTimeout now).length
  refine ⟨he, hm, ?_⟩
  rw [defaultFilter_characterization, hm, if_neg (by omega)]

/-- Witness for C1 at the first concrete scenario of the spec: five healthy
candidates with replication factor three give minSuccess three, all five
instances back, and a failure budget of two. -/
theorem C1_quorum_success_witness :
    defaultFilter exHealthy [exA1, exA2, exA3, exA4, exA5] 0 3 10 100 false =
      { healthy := [exA1, exA2, exA3, exA4, exA5], maxFailures := 2, err := none } :=
  (C1_quorum_success exHealthy [exA1, exA2, exA3, exA4, exA5] 0 3 10 100 false
    (by decide)).2.2.trans (by decide)

/-- C2: whenever the healthy count is strictly below minSuccess, the quorum
Filter returns an error together with an empty instance list and a
maxFailures of zero; more generally every erroring call returns the empty
list and zero, never a partial subset. -/
theorem C2_quorum_failfast (isHealthy : HealthPred) (instances : List InstanceDesc)
    (op : Operation) (replicationFactor heartbeatTimeout now : Int)
    (zoneAwarenessEnabled : Bool) :
    (((healthySubset isHealthy instances op heartbeatTimeout now).length : Int) <
        codeMinSuccess replicationFactor
          (healthySubset isHealthy instances op heartbeatTimeout now).length →
      defaultFilter isHealthy instances op replicationFactor heartbeatTimeout now
          zoneAwarenessEnabled =
        { healthy := []
          maxFailures := 0
          err := some (insufficientReplicasMsg
            (codeMinSuccess replicationFactor
              (healthySubset isHealthy instances op heartbeatTimeout now).length)
            (healthySubset isHealthy instances op heartbeatTimeout now).length
            (unhealthyAddrs isHealthy instances op heartbeatTimeout now)
            zoneAwarenessEnabled) }) ∧
    ((defaultFilter isHealthy instances op replicationFactor heartbeatTimeout now
        zoneAwarenessEnabled).err.isSome →
      (defaultFilter isHealthy instances op replicationFactor heartbeatTimeout now
          zoneAwarenessEnabled).healthy = [] ∧
      (defaultFilter isHealthy instances op replicationFactor heartbeatTimeout now
          zoneAwarenessEnabled).maxFailures = 0) := by
  rw [defaultFilter_characterization]
  constructor
  · intro hlt
    rw [if_pos hlt]
  · intro hsome
    by_cases hlt : ((healthySubset isHealthy instances op heartbeatTimeout now).length : Int) <
        codeMinSuccess replicationFactor
          (healthySubset isHealthy instances op heartbeatTimeout now).length
    · rw [if_pos hlt]
      exact ⟨rfl, rfl⟩
    · rw [if_neg hlt] at hsome
      simp at hsome

/-- Witness for C2 at the third concrete scenario of the spec: three
candidates of which two are unhealthy under replication factor three produce
the fail-fast error with no instances, and the erroring result carries the
empty list and a zero budget. -/
theorem C2_quorum_failfast_witness :
    defaultFilter exHealthy [exA1, exB1, exB2] 0 3 10 100 false =
      { healthy := []
        maxFailures := 0
        err := some ("at least 2 live replicas required, could only find 1 - unhealthy instances: bad1,bad2") } ∧
    (defaultFilter exHealthy [exA1, exB1, exB2] 0 3 10 100 false).healthy = [] :=
  ⟨((C2_quorum_failfast exHealthy [exA1, exB1, exB2] 0 3 10 100 false).1
      (by decide)).trans (by decide),
    ((C2_quorum_failfast exHealthy [exA1, exB1, exB2] 0 3 10 100 false).2
      (by decide)).1⟩

/-- C3: the best-effort Filter fails exactly when no input instance is
healthy; on failure its error is the diagnostic built from the unhealthy
addresses, and on success it returns all healthy instances with maxFailures
equal to the healthy count minus one. -/
theorem C3_best_effort (isHealthy : HealthPred) (instances : List InstanceDesc)
    (op : Operation) (replicationFactor heartbeatTimeout now : Int)
    (zoneAwarenessEnabled : Bool) :
    (ignoreUnhealthyFilter isHealthy instances op replicationFactor heartbeatTimeout
        now zoneAwarenessEnabled =
      if (healthySubset isHealthy instances op heartbeatTimeout now).length = 0 then
        { healthy := []
          maxFailures := 0
          err := some (noHealthyReplicaMsg
            (unhealthyAddrs isHealthy instances op heartbeatTimeout now)) }
      else
        { healthy := healthySubset isHealthy instances op heartbeatTimeout now
          maxFailures :=
            ((healthySubset isHealthy instances op heartbeatTimeout now).length : Int) - 1
          err := none }) ∧
    ((ignoreUnhealthyFilter isHealthy instances op replicationFactor heartbeatTimeout
        now zoneAwarenessEnabled).err.isSome ↔
      healthySubset isHealthy instances op heartbeatTimeout now = []) := by
  refine ⟨ignoreFilter_characterization isHealthy instances op replicationFactor
    heartbeatTimeout now zoneAwarenessEnabled, ?_⟩
  rw [ignoreFilter_characterization]
  by_cases h : (healthySubset isHealthy instances op heartbeatTimeout now).length = 0
  · rw [if_pos h]
    simp [List.length_eq_zero] at h
    simp [h]
  · rw [if_neg h]
    simp only [Option.isSome_none, Bool.false_eq_true, false_iff]
    intro hnil
    rw [hnil] at h
    simp at h

/-- Witness for C3 at the fourth and fifth concrete scenarios of the spec:
one healthy candidate among four yields that candidate with a zero budget,
and four unhealthy candidates yield the no-healthy-replica error. -/
theorem C3_best_effort_witness :
    ignoreUnhealthyFilter exHealthy [exB1, exA1, exB2, exB3] 0 3 10 100 false =
      { healthy := [exA1], maxFailures := 0, err := none } ∧
    ignoreUnhealthyFilter exAllUnhealthy [exA1, exA2] 0 3 10 100 false =
      { healthy := []
        maxFailures := 0
        err := some ("at least 1 healthy replica required, could only find 0 - unhealthy instances: a1,a2") } :=
  ⟨(C3_best_effort exHealthy [exB1, exA1, exB2, exB3] 0 3 10 100 false).1.trans
      (by decide),
    (C3_best_effort exAllUnhealthy [exA1, exA2] 0 3 10 100 false).1.trans (by decide)⟩

/-- C4: for both strategies the returned healthy subset is an
order-preserving sub-sequence of the input, and on success it is exactly the
filter of the input by the health predicate at the one captured time. -/
theorem C4_order_preserving (isHealthy : HealthPred) (instances : List InstanceDesc)
    (op : Operation) (replicationFactor heartbeatTimeout now : Int)
    (zoneAwarenessEnabled : Bool) :
    List.Sublist (healthySubset isHealthy instances op heartbeatTimeout now)
      instances ∧
    List.Sublist (defaultFilter isHealthy instances op replicationFactor
      heartbeatTimeout now zoneAwarenessEnabled).healthy instances ∧
    List.Sublist (ignoreUnhealthyFilter isHealthy instances op replicationFactor
      heartbeatTimeout now zoneAwarenessEnabled).healthy instances ∧
    ((defaultFilter isHealthy instances op replicationFactor heartbeatTimeout now
        zoneAwarenessEnabled).err = none →
      (defaultFilter isHealthy instances op replicationFactor heartbeatTimeout now
          zoneAwarenessEnabled).healthy =
        instances.filter (fun inst => isHealthy inst op heartbeatTimeout now)) ∧
    ((ignoreUnhealthyFilter isHealthy instances op replicationFactor heartbeatTimeout
        now zoneAwarenessEnabled).err = none →
      (ignoreUnhealthyFilter isHealthy instances op replicationFactor heartbeatTimeout
          now zoneAwarenessEnabled).healthy =
        instances.filter (fun inst => isHealthy inst op heartbeatTimeout now)) := by
  have hsub : List.Sublist (healthySubset isHealthy instances op heartbeatTimeout now)
      instances := List.filter_sublist instances
  rw [defaultFilter_characterization, ignoreFilter_characterization]
  refine ⟨hsub, ?_, ?_, ?_, ?_⟩
  · split
    · exact List.nil_sublist instances
    · exact hsub
  · split
    · exact List.nil_sublist instances
    · exact hsub
  · split
    · intro h
      simp at h
    · intro h
      rfl
  · split
    · intro h
      simp at h
    · intro h
      rfl

/-- Witness for C4: a mixed concrete input on which both strategies succeed
and return exactly the healthy entries in input order. -/
theorem C4_order_preserving_witness :
    (defaultFilter exHealthy [exA1, exB1, exA2] 0 3 10 100 false).healthy =
      [exA1, exA2] ∧
    (ignoreUnhealthyFilter exHealthy [exA1, exB1, exA2] 0 3 10 100 false).healthy =
      [exA1, exA2] :=
  ⟨((C4_order_preserving exHealthy [exA1, exB1, exA2] 0 3 10 100 false).2.2.2.1
      (by decide)).trans (by decide),
    ((C4_order_preserving exHealthy [exA1, exB1, exA2] 0 3 10 100 false).2.2.2.2
      (by decide)).trans (by decide)⟩

/-- C5 (amended): both strategies are deterministic and stateless — the
receivers are empty structs carrying no state, so any two receiver values
give identical results on identical inputs at the same captured time; but
the time is not supplied by the caller: the Filter signature has no now
parameter, and each implementation captures time.Now() internally once per
call, which the embedding models by the explicit now argument. -/
theorem C5_stateless_deterministic (s t : defaultReplicationStrategy)
    (u v : ignoreUnhealthyInstancesReplicationStrategy) (isHealthy : HealthPred)
    (instances : List InstanceDesc) (op : Operation)
    (replicationFactor heartbeatTimeout now : Int) (zoneAwarenessEnabled : Bool) :
    s.Filter isHealthy instances op replicationFactor heartbeatTimeout now
        zoneAwarenessEnabled =
      t.Filter isHealthy instances op replicationFactor heartbeatTimeout now
        zoneAwarenessEnabled ∧
    u.Filter isHealthy instances op replicationFactor heartbeatTimeout now
        zoneAwarenessEnabled =
      v.Filter isHealthy instances op replicationFactor heartbeatTimeout now
        zoneAwarenessEnabled ∧
    FilterParamNames.contains nowParamName = false :=
  ⟨rfl, rfl, by decide⟩

/-- C5 counterexample: the clause that now is supplied by the caller at call
time fails against the source: the parameter list of Filter in the
ReplicationStrategy interface (line 16) contains no now parameter — both
implementations poll time.Now() themselves at lines 32 and 81. -/
theorem C5_counterexample : FilterParamNames.contains nowParamName = false := by
  decide

/-- C6: with a positive configured replication factor, whenever either
strategy returns success the failure budget is nonnegative and strictly
smaller than the number of returned healthy instances. -/
theorem C6_failure_budget (isHealthy : HealthPred) (instances : List InstanceDesc)
    (op : Operation) (replicationFactor heartbeatTimeout now : Int)
    (zoneAwarenessEnabled : Bool) (hrf : 0 < replicationFactor) :
    ((defaultFilter isHealthy instances op replicationFactor heartbeatTimeout now
        zoneAwarenessEnabled).err = none →
      0 ≤ (defaultFilter isHealthy instances op replicationFactor heartbeatTimeout now
          zoneAwarenessEnabled).maxFailures ∧
      (defaultFilter isHealthy instances op replicationFactor heartbeatTimeout now
          zoneAwarenessEnabled).maxFailures <
        ((defaultFilter isHealthy instances op replicationFactor heartbeatTimeout now
          zoneAwarenessEnabled).healthy.length : Int)) ∧
    ((ignoreUnhealthyFilter isHealthy instances op replicationFactor heartbeatTimeout
        now zoneAwarenessEnabled).err = none →
      0 ≤ (ignoreUnhealthyFilter isHealthy instances op replicationFactor
          heartbeatTimeout now zoneAwarenessEnabled).maxFailures ∧
      (ignoreUnhealthyFilter isHealthy instances op replicationFactor heartbeatTimeout
          now zoneAwarenessEnabled).maxFailures <
        ((ignoreUnhealthyFilter isHealthy instances op replicationFactor
          heartbeatTimeout now zoneAwarenessEnabled).healthy.length : Int)) := by
  have hpos := codeMinSuccess_pos replicationFactor
    (healthySubset isHealthy instances op heartbeatTimeout now).length
  rw [defaultFilter_characterization, ignoreFilter_characterization]
  constructor
  · split
    · intro h
      simp at h
    · intro _
      constructor <;> simp <;> omega
  · split
    · intro h
      simp at h
    · intro _
      rename_i hne
      constructor <;> simp <;> omega

/-- Witness for C6: a fully healthy three-candidate input with replication
factor three, on which both strategies succeed with budgets inside the
required range. -/
theorem C6_failure_budget_witness :
    (0 : Int) ≤ (defaultFilter exHealthy [exA1, exA2, exA3] 0 3 10 100 false).maxFailures ∧
    (defaultFilter exHealthy [exA1, exA2, exA3] 0 3 10 100 false).maxFailures <
      ((defaultFilter exHealthy [exA1, exA2, exA3] 0 3 10 100 false).healthy.length : Int) ∧
    (0 : Int) ≤ (ignoreUnhealthyFilter exHealthy [exA1, exA2, exA3] 0 3 10 100
      false).maxFailures ∧
    (ignoreUnhealthyFilter exHealthy [exA1, exA2, exA3] 0 3 10 100 false).maxFailures <
      ((ignoreUnhealthyFilter exHealthy [exA1, exA2, exA3] 0 3 10 100
        false).healthy.length : Int) := by
  obtain ⟨hd, hi⟩ := C6_failure_budget exHealthy [exA1, exA2, exA3] 0 3 10 100 false
    (by decide)
  obtain ⟨hd1, hd2⟩ := hd (by decide)
  obtain ⟨hi1, hi2⟩ := hi (by decide)
  exact ⟨hd1, hd2, hi1, hi2⟩

/-- C7: every quorum failure reports minSuccess, the found healthy count and
the unhealthy addresses through the error message; the zone-aware message
contains the availability-zones clause and differs from the plain wording
for every field combination. -/
theorem C7_error_reports (isHealthy : HealthPred) (instances : List InstanceDesc)
    (op : Operation) (replicationFactor heartbeatTimeout now : Int)
    (zoneAwarenessEnabled : Bool)
    (hlt : ((healthySubset isHealthy instances op heartbeatTimeout now).length : Int) <
      codeMinSuccess replicationFactor
        (healthySubset isHealthy instances op heartbeatTimeout now).length) :
    (defaultFilter isHealthy instances op replicationFactor heartbeatTimeout now
        zoneAwarenessEnabled).err =
      some (insufficientReplicasMsg
        (codeMinSuccess replicationFactor
          (healthySubset isHealthy instances op heartbeatTimeout now).length)
        (healthySubset isHealthy instances op heartbeatTimeout now).length
        (unhealthyAddrs isHealthy instances op heartbeatTimeout now)
        zoneAwarenessEnabled) ∧
    (∀ (m : Int) (c : Nat) (u : List String), ∃ pre post : String,
      insufficientReplicasMsg m c u true = pre ++ zoneClause ++ post) ∧
    (∀ (m : Int) (c : Nat) (u : List String),
      (insufficientReplicasMsg m c u true == insufficientReplicasMsg m c u false) =
        false) := by
  refine ⟨?_, ?_, ?_⟩
  · rw [defaultFilter_characterization, if_pos hlt]
  · intro m c u
    refine ⟨"at least " ++ toString m ++ " live replicas required ",
      ", could only find " ++ toString c ++ unhealthyStr u, ?_⟩
    have hmt : insufficientReplicasMsg m c u true
        = "at least " ++ toString m ++ zoneRequiredClause ++ toString c ++
          unhealthyStr u := rfl
    have hz : zoneRequiredClause
        = " live replicas required " ++ (zoneClause ++ ", could only find ") := by
      decide
    rw [hmt, hz]
    simp [String.append_assoc]
  · intro m c u
    rw [beq_eq_false_iff_ne]
    have hmt : insufficientReplicasMsg m c u true
        = "at least " ++ toString m ++ zoneRequiredClause ++ toString c ++
          unhealthyStr u := rfl
    have hmf : insufficientReplicasMsg m c u false
        = "at least " ++ toString m ++ plainRequiredClause ++ toString c ++
          unhealthyStr u := rfl
    rw [hmt, hmf]
    intro h
    have hlen := congrArg String.length h
    simp only [String.length_append] at hlen
    have h77 : zoneRequiredClause.length = 77 := rfl
    have h41 : plainRequiredClause.length = 41 := rfl
    rw [h77, h41] at hlen
    omega

/-- Witness for C7: the zone-aware variant of the third concrete scenario,
whose rendered error carries minSuccess two, found count one, the two
unhealthy addresses and the availability-zones wording. -/
theorem C7_error_reports_witness :
    (defaultFilter exHealthy [exA1, exB1, exB2] 0 3 10 100 true).err =
      some ("at least 2 live replicas required across different availability zones, could only find 1 - unhealthy instances: bad1,bad2") :=
  ((C7_error_reports exHealthy [exA1, exB1, exB2] 0 3 10 100 true (by decide)).1).trans
    (by decide)

/-- C8 counterexample: the errors are not programmatically structured — they
are fmt.Errorf strings, and two calls whose unhealthy-address lists differ
(one address containing a comma versus two plain addresses) return exactly
the same error value, so the field list cannot be recovered from the error. -/
theorem C8_counterexample :
    (defaultFilter exAllUnhealthy [exCommaAddr] 0 3 10 100 false).err =
      (defaultFilter exAllUnhealthy [exA, exB] 0 3 10 100 false).err ∧
    (unhealthyAddrs exAllUnhealthy [exCommaAddr] 0 10 100 ==
      unhealthyAddrs exAllUnhealthy [exA, exB] 0 10 100) = false := by
  constructor
  · decide
  · decide

/-- C8 (amended): both error kinds are returned as values — the err
component of the result — and render the computed fields (minSuccess, found
count, zone flag, unhealthy addresses) into a human-readable diagnostic
string; the fields live only in that string, not as separately consumable
structure fields. -/
theorem C8_errors_as_values (isHealthy : HealthPred) (instances : List InstanceDesc)
    (op : Operation) (replicationFactor heartbeatTimeout now : Int)
    (zoneAwarenessEnabled : Bool) :
    (defaultFilter isHealthy instances op replicationFactor heartbeatTimeout now
        zoneAwarenessEnabled).err =
      (if ((healthySubset isHealthy instances op heartbeatTimeout now).length : Int) <
          codeMinSuccess replicationFactor
            (healthySubset isHealthy instances op heartbeatTimeout now).length then
        some (insufficientReplicasMsg
          (codeMinSuccess replicationFactor
            (healthySubset isHealthy instances op heartbeatTimeout now).length)
          (healthySubset isHealthy instances op heartbeatTimeout now).length
          (unhealthyAddrs isHealthy instances op heartbeatTimeout now)
          zoneAwarenessEnabled)
      else none) ∧
    (ignoreUnhealthyFilter isHealthy instances op replicationFactor heartbeatTimeout
        now zoneAwarenessEnabled).err =
      (if (healthySubset isHealthy instances op heartbeatTimeout now).length = 0 then
        some (noHealthyReplicaMsg (unhealthyAddrs isHealthy instances op
          heartbeatTimeout now))
      else none) := by
  rw [defaultFilter_characterization, ignoreFilter_characterization]
  constructor
  · split <;> rfl
  · split <;> rfl

/-- C9 counterexample: the input slice is not left unmodified — after the
call, the backing array of a two-element slice whose first entry was
unhealthy holds the surviving entry twice, differing from the original
contents. -/
theorem C9_counterexample :
    (backingAfterFilterLoop exHealthy [exB1, exA1] 0 10 100 == [exB1, exA1]) =
      false := by
  decide

/-- C9 (amended): the filter loop mutates the instances slice in place, as
the source comment at line 30 documents: the healthy entries are compacted
into a prefix of the backing array the caller passed in (whose length is
unchanged), and the returned slice is exactly that compacted
order-preserving filter. -/
theorem C9_in_place_compaction (isHealthy : HealthPred)
    (instances : List InstanceDesc) (op : Operation) (heartbeatTimeout now : Int) :
    (backingAfterFilterLoop isHealthy instances op heartbeatTimeout now).length =
      instances.length ∧
    (backingAfterFilterLoop isHealthy instances op heartbeatTimeout now).take
        (healthySubset isHealthy instances op heartbeatTimeout now).length =
      healthySubset isHealthy instances op heartbeatTimeout now := by
  obtain ⟨h1, h2, h3, h4⟩ :=
    runFilterLoop_spec (fun inst => isHealthy inst op heartbeatTimeout now) instances
  refine ⟨h1, ?_⟩
  rw [healthySubset, ← h2]
  exact h3

/-- C10: for every replication factor, including zero and negative values,
minSuccess is at least one because the effective factor is at least the
healthy count; hence every quorum success returns at least one instance and
a failure budget strictly below the healthy count. -/
theorem C10_degenerate_factors (isHealthy : HealthPred)
    (instances : List InstanceDesc) (op : Operation)
    (replicationFactor heartbeatTimeout now : Int) (zoneAwarenessEnabled : Bool) :
    1 ≤ codeMinSuccess replicationFactor
      (healthySubset isHealthy instances op heartbeatTimeout now).length ∧
    ((healthySubset isHealthy instances op heartbeatTimeout now).length : Int) ≤
      codeEffectiveFactor replicationFactor
        (healthySubset isHealthy instances op heartbeatTimeout now).length ∧
    ((defaultFilter isHealthy instances op replicationFactor heartbeatTimeout now
        zoneAwarenessEnabled).err = none →
      1 ≤ (defaultFilter isHealthy instances op replicationFactor heartbeatTimeout
          now zoneAwarenessEnabled).healthy.length ∧
      (defaultFilter isHealthy instances op replicationFactor heartbeatTimeout now
          zoneAwarenessEnabled).maxFailures <
        ((defaultFilter isHealthy instances op replicationFactor heartbeatTimeout
          now zoneAwarenessEnabled).healthy.length : Int)) := by
  have hpos := codeMinSuccess_pos replicationFactor
    (healthySubset isHealthy instances op heartbeatTimeout now).length
  have hbnd := codeEffectiveFactor_bounds replicationFactor
    (healthySubset isHealthy instances op heartbeatTimeout now).length
  refine ⟨hpos, hbnd.2.1, ?_⟩
  rw [defaultFilter_characterization]
  split
  · intro h
    simp at h
  · intro _
    rename_i hge
    constructor <;> simp <;> omega

/-- Witness for C10 at a negative configured replication factor: one healthy
candidate with factor minus five still yields minSuccess one, a successful
call returning that candidate, and a zero budget. -/
theorem C10_degenerate_factors_witness :
    1 ≤ codeMinSuccess (-5) (healthySubset exHealthy [exA1] 0 10 100).length ∧
    1 ≤ (defaultFilter exHealthy [exA1] 0 (-5) 10 100 false).healthy.length := by
  obtain ⟨h1, _, h3⟩ := C10_degenerate_factors exHealthy [exA1] 0 (-5) 10 100 false
  exact ⟨h1, (h3 (by decide)).1⟩
